import Mathlib

/-!
Shallow embedding of `src/cursed/modules/networking/__init__.py` (module
`cursed.modules.networking`): WireGuard tunnel lifecycle management, kernel
interface name allocation, peer liveness, and the nftables rule primitive
model (`NFTablesMatch`, `NFTablesStatement`).

Python exceptions are modelled by the inductive `PyErr`; a method that can
raise returns its error through `Option PyErr` (state-passing style) or
`Except PyErr`.  Kernel state (the set of live network interfaces) is passed
explicitly.  Timestamps are integers counting seconds.
-/

namespace Networking

/-- Errors raised by the Python code.  `valueError` and `runtimeError` carry
the message built at the raise site; `keyError` carries the missing key;
`attributeError` models reading an instance attribute that was never
assigned; `kernelCreateError` models the netlink failure raised by
`ndb.interfaces.create` when an interface with the requested name already
exists.  The constructor `peerInfoUnavailable` does not occur in the source:
it models the spec's `PeerInfoUnavailableError` taxonomy entry, and exists
only so that statements comparing the code's behaviour against that part of
the spec can be written down. -/
inductive PyErr
  | attributeError
  | keyError (key : String)
  | indexError
  | valueError (msg : String)
  | runtimeError (msg : String)
  | kernelCreateError
  | peerInfoUnavailable
deriving DecidableEq

/-! ## NFTablesMatch (source lines 162-186) -/

/-- Enum `NFTablesMatch.OperatorType` (source lines 164-172). -/
inductive OperatorType
  | EQUAL
  | NOT_EQUAL
  | LESS_THAN
  | GREATER_THAN
  | LESS_EQUAL
  | GREATER_EQUAL
  | NONE
deriving DecidableEq

/-- The `.value` of each `OperatorType` member (the string after `=` in the
enum declaration). -/
def OperatorType.value : OperatorType → String
  | .EQUAL => "eq"
  | .NOT_EQUAL => "ne"
  | .LESS_THAN => "lt"
  | .GREATER_THAN => "gt"
  | .LESS_EQUAL => "le"
  | .GREATER_EQUAL => "ge"
  | .NONE => ""

/-- Class `NFTablesMatch` (source lines 162-186): `left`, `right`, `op` as
assigned by `__init__`. -/
structure NFTablesMatch where
  left : String
  right : String
  op : OperatorType
deriving DecidableEq

/-- `NFTablesMatch.convert_to_dict` (source line 184-186): the dict
`{"left": left, "right": right, "op": op.value}`, rendered as a triple in
field order. -/
def NFTablesMatch.convert_to_dict (m : NFTablesMatch) : String × String × String :=
  (m.left, m.right, m.op.value)

/-! ## NFTablesStatement (source lines 188-220) -/

/-- Enum `NFTablesStatement.StatementType` members (source lines 190-204). -/
inductive StatementType
  | ACCEPT
  | DROP
  | QUEUE
  | CONTINUE
  | RETURN
  | JUMP
  | GOTO
  | REJECT
  | COUNTER
  | LIMIT
  | DNAT
  | SNAT
  | MASQUERADE
deriving DecidableEq

/-- Python's `member.name` for each `StatementType` member. -/
def StatementType.member_name : StatementType → String
  | .ACCEPT => "ACCEPT"
  | .DROP => "DROP"
  | .QUEUE => "QUEUE"
  | .CONTINUE => "CONTINUE"
  | .RETURN => "RETURN"
  | .JUMP => "JUMP"
  | .GOTO => "GOTO"
  | .REJECT => "REJECT"
  | .COUNTER => "COUNTER"
  | .LIMIT => "LIMIT"
  | .DNAT => "DNAT"
  | .SNAT => "SNAT"
  | .MASQUERADE => "MASQUERADE"

/-- The `"name"` field of each member's value dict (source lines 192-204).
Note the source gives `QUEUE` the value `{"name": "accept", ...}`. -/
def StatementType.value_name : StatementType → String
  | .ACCEPT => "accept"
  | .DROP => "drop"
  | .QUEUE => "accept"
  | .CONTINUE => "continue"
  | .RETURN => "return"
  | .JUMP => "jump"
  | .GOTO => "goto"
  | .REJECT => "reject"
  | .COUNTER => "counter"
  | .LIMIT => "limit"
  | .DNAT => "dnat"
  | .SNAT => "snat"
  | .MASQUERADE => "masquerade"

/-- The `"needs_extra"` field of each member's value dict (source lines
192-204): Python `True`, `False` or `None` become `some true`, `some false`
and `none`. -/
def StatementType.needs_extra : StatementType → Option Bool
  | .ACCEPT => some false
  | .DROP => some false
  | .QUEUE => none
  | .CONTINUE => some false
  | .RETURN => some false
  | .JUMP => some true
  | .GOTO => some true
  | .REJECT => none
  | .COUNTER => none
  | .LIMIT => some true
  | .DNAT => some true
  | .SNAT => some true
  | .MASQUERADE => some false

/-- Class `NFTablesStatement` (source lines 188-220): fields `s_type` and
`extra` as assigned by a successful `__init__`. -/
structure NFTablesStatement where
  s_type : StatementType
  extra : Option String
deriving DecidableEq

/-- `NFTablesStatement.__init__` (source lines 209-216).  Raises `ValueError`
when `needs_extra is not False` and `extra is None`, or when `needs_extra is
False` and `extra is not None`; otherwise stores both fields. -/
def NFTablesStatement.init (s_type : StatementType) (extra : Option String) :
    Except PyErr NFTablesStatement :=
  if s_type.needs_extra ≠ some false ∧ extra = none then
    .error (.valueError
      ("Extra information must be provided for this statment type: " ++ s_type.member_name))
  else if s_type.needs_extra = some false ∧ extra ≠ none then
    .error (.valueError
      ("Extra information must not be provided for this statement type: " ++ s_type.member_name))
  else
    .ok { s_type := s_type, extra := extra }

/-- `NFTablesStatement.convert_to_dict` (source lines 218-220): the
single-key dict `{s_type.value["name"]: extra}`, rendered as a
(key, value) pair. -/
def NFTablesStatement.convert_to_dict (s : NFTablesStatement) : String × Option String :=
  (s.s_type.value_name, s.extra)

/-! ## Kernel interface registry model

The pyroute2 collaborators (`IPRoute`, `NDB`, `WireGuard.set`) act on the
host's table of live network interfaces.  We model that table as an explicit
list of interface records threaded through every method that touches it. -/

/-- One live kernel network interface: its name, link kind, assigned address
prefixes, administrative state, and (for wireguard links) the parameters
installed by `WireGuard.set`. -/
structure KernelInterface where
  ifname : String
  kind : String
  addrs : List String
  up : Bool
  wg_private_key : Option String
  wg_listen_port : Option Nat
  wg_peer_public_key : Option String
  wg_peer_allowed_ips : List String
deriving DecidableEq

/-- The host's table of live kernel interfaces. -/
abbrev Kernel := List KernelInterface

/-- `ipr.link_lookup(ifname=n)`: the (possibly empty) list of live interfaces
whose name is `n`. -/
def link_lookup (k : Kernel) (n : String) : List KernelInterface :=
  k.filter (fun itf => itf.ifname == n)

/-! ## TunnelInterface / WireguardTunnel (source lines 15-136) -/

/-- Enum `TunnelInterface.TunnelType` (source lines 17-19). -/
inductive TunnelType
  | WIREGUARD
deriving DecidableEq

/-- `WireguardTunnel.getbasename` (source lines 63-64); the method ignores
`self` and returns the constant base name. -/
def wireguardBasename : String := "sown-wg"

/-- Loop body of `TunnelInterface.__get_next_int_name_for_type` (source
lines 37-47): starting from index `ifidx`, return `base + str(i)` for the
first `i ≥ ifidx` with no live interface of that name.  The Python `while`
loop is unbounded; `fuel` makes the recursion structural, and the theorem
`get_next_int_name_go_least` below is stated for any sufficient fuel. -/
def get_next_int_name_go (k : Kernel) (base : String) : Nat → Nat → String
  | 0, ifidx => base ++ Nat.repr ifidx
  | fuel + 1, ifidx =>
    let ifname := base ++ Nat.repr ifidx
    if 0 < (link_lookup k ifname).length then get_next_int_name_go k base fuel (ifidx + 1)
    else ifname

/-- `TunnelInterface.__get_next_int_name_for_type` (source lines 37-47).
Fuel `k.length + 1` always suffices: among the first `k.length + 1` candidate
names at least one is unused (`exists_free_name` below), so the loop stops at
the least unused index. -/
def get_next_int_name (k : Kernel) (base : String) : String :=
  get_next_int_name_go k base (k.length + 1) 0

/-- Concrete variant `WireguardTunnel` of the `TunnelInterface` protocol
(source lines 15-136).  `ifname : Option String` models the Python instance
attribute, which `__init__` leaves unassigned when `auto_name` is false
(reading it then raises `AttributeError`). -/
structure WireguardTunnel where
  int_type : TunnelType
  ifname : Option String
  peer_addrs : List String
  local_addrs : List String
  interface_created : Bool
  listen_port : Nat
  peer_pubkey : String
  own_privkey : String
deriving DecidableEq

/-- `WireguardTunnel.__init__` (source lines 132-136) chaining to
`TunnelInterface.__init__` (source lines 49-56).  Address prefixes are
modelled by their `with_prefixlen` strings.  `kernel` is the live interface
table consulted by the name allocator when `auto_name` is true. -/
def WireguardTunnel.init (kernel : Kernel) (peer_addrs local_addrs : List String)
    (listen_port : Nat) (peer_pubkey own_privkey : String) (auto_name : Bool) :
    WireguardTunnel :=
  { int_type := .WIREGUARD
    ifname := if auto_name then some (get_next_int_name kernel wireguardBasename) else none
    peer_addrs := peer_addrs
    local_addrs := local_addrs
    interface_created := false
    listen_port := listen_port
    peer_pubkey := peer_pubkey
    own_privkey := own_privkey }

/-- `WireguardTunnel.setup_interface` (source lines 67-89).  The
`ndb.interfaces.create` call fails with a netlink error when an interface
named `ifname` already exists; otherwise the new wireguard link is created
with the local prefixes attached and brought up, and `wg.set` installs the
private key, listen port and the single peer entry.  Returns
(raised error, kernel table, descriptor). -/
def WireguardTunnel.setup_interface (k : Kernel) (d : WireguardTunnel) :
    Option PyErr × Kernel × WireguardTunnel :=
  match d.ifname with
  | none => (some .attributeError, k, d)
  | some n =>
    if 0 < (link_lookup k n).length then (some .kernelCreateError, k, d)
    else
      let itf : KernelInterface :=
        { ifname := n
          kind := "wireguard"
          addrs := d.local_addrs
          up := true
          wg_private_key := some d.own_privkey
          wg_listen_port := some d.listen_port
          wg_peer_public_key := some d.peer_pubkey
          wg_peer_allowed_ips := d.peer_addrs }
      (none, itf :: k, { d with interface_created := true })

/-- `WireguardTunnel.delete_interface` (source lines 92-105): early return
when `interface_created is not True`; otherwise look the interface up by
name, raise `RuntimeError` when absent, else delete the first match (by its
index) and clear `interface_created`. -/
def WireguardTunnel.delete_interface (k : Kernel) (d : WireguardTunnel) :
    Option PyErr × Kernel × WireguardTunnel :=
  if d.interface_created ≠ true then (none, k, d)
  else
    match d.ifname with
    | none => (some .attributeError, k, d)
    | some n =>
      let interface := link_lookup k n
      if interface.length = 0 then
        (some (.runtimeError "Cannot delete interface that doesn't exist!"), k, d)
      else
        (none, k.eraseP (fun itf => itf.ifname == n), { d with interface_created := false })

/-! ## Peer info and liveness (source lines 107-130)

`wg.info(ifname)` queries the wireguard protocol collaborator for the named
device's runtime state.  The reply relevant to this code is the
`WGDEVICE_A_PEERS` attribute (absent when the device reports no peers) and,
per peer, the `WGPEER_A_LAST_HANDSHAKE_TIME` attribute, whose parsed
datetime we model as seconds (`Option Int`, `none` when the key is absent).
The collaborator is modelled as a function from interface name to reply. -/

/-- The attribute dict of one entry of `WGDEVICE_A_PEERS`. -/
structure WGPeerAttrs where
  last_handshake_time : Option Int
deriving DecidableEq

/-- The attribute dict of one device as reported by `wg.info`. -/
structure WGDeviceInfo where
  peers : Option (List WGPeerAttrs)
deriving DecidableEq

/-- `WireguardTunnel.__get_peer_info` (source lines 108-116):
`dict(dict(info[0]["attrs"])["WGDEVICE_A_PEERS"][0]["attrs"])`.  A missing
`WGDEVICE_A_PEERS` key raises `KeyError`; an empty peer list makes the
`[0]` subscript raise `IndexError`; otherwise the first peer's attribute
dict is returned. -/
def WireguardTunnel.get_peer_info (wgInfo : String → WGDeviceInfo) (d : WireguardTunnel) :
    Except PyErr WGPeerAttrs :=
  match d.ifname with
  | none => .error .attributeError
  | some n =>
    match (wgInfo n).peers with
    | none => .error (.keyError "WGDEVICE_A_PEERS")
    | some [] => .error .indexError
    | some (peer0 :: _) => .ok peer0

/-- `WireguardTunnel.is_peer_alive` (source lines 119-130): fetch the peer
info, parse the last-handshake time, and return
`(now - last_handshake).total_seconds() <= 300`.  The method assigns no
attribute and performs no kernel write, so the kernel table and descriptor
are returned unchanged on every path. -/
def WireguardTunnel.is_peer_alive (wgInfo : String → WGDeviceInfo) (now : Int)
    (k : Kernel) (d : WireguardTunnel) :
    Option PyErr × Option Bool × Kernel × WireguardTunnel :=
  match WireguardTunnel.get_peer_info wgInfo d with
  | .error e => (some e, none, k, d)
  | .ok peer_info =>
    match peer_info.last_handshake_time with
    | none => (some (.keyError "WGPEER_A_LAST_HANDSHAKE_TIME"), none, k, d)
    | some last_handshake => (none, some (decide (now - last_handshake ≤ 300)), k, d)

/-! ## Concrete sample data used by witnesses and counterexamples -/

/-- A minimal non-wireguard interface record with a given name, for
populating sample kernel tables. -/
def plainInterface (n : String) : KernelInterface :=
  { ifname := n
    kind := "dummy"
    addrs := []
    up := true
    wg_private_key := none
    wg_listen_port := none
    wg_peer_public_key := none
    wg_peer_allowed_ips := [] }

/-- Sample tunnel descriptor built by the constructor against an empty
kernel table with automatic naming (its name computes to `sown-wg0`). -/
def sampleTunnel : WireguardTunnel :=
  WireguardTunnel.init [] ["192.0.0.2/32"] ["192.0.0.1/32"] 2525 "peer-pub-key" "own-priv-key" true

/-- Sample tunnel descriptor with all fields given literally (as after the
caller assigns `ifname` by hand). -/
def namedTunnel : WireguardTunnel :=
  { int_type := .WIREGUARD
    ifname := some "sown-wg0"
    peer_addrs := ["192.0.0.2/32"]
    local_addrs := ["192.0.0.1/32"]
    interface_created := false
    listen_port := 2525
    peer_pubkey := "peer-pub-key"
    own_privkey := "own-priv-key" }

/-- Sample protocol collaborator reporting one peer whose last handshake was
at time `t`, for every interface name. -/
def handshakeInfoAt (t : Int) : String → WGDeviceInfo :=
  fun _ => { peers := some [{ last_handshake_time := some t }] }

/-- Sample protocol collaborator reporting a device with no
`WGDEVICE_A_PEERS` attribute at all. -/
def noPeersInfo : String → WGDeviceInfo :=
  fun _ => { peers := none }

/-! ## Decoding decimal digit strings

Helpers used to prove `Nat.repr` injective, which underlies termination of
the name-allocation loop. -/

/-- Numeric value of a decimal digit character. -/
def digitVal (c : Char) : Nat := c.toNat - 48

/-- Value of a most-significant-first list of decimal digit characters. -/
def decodeDigits (l : List Char) : Nat :=
  l.foldl (fun a c => 10 * a + digitVal c) 0

/-! ## Injectivity of decimal rendering

`Nat.repr` is injective: decoding the digit string recovers the number.
This is what makes the name-allocation loop terminate — among any
`k.length + 1` distinct candidate names, at least one is not a live
interface name. -/

/-- `Nat.toDigitsCore` only prepends to its accumulator. -/
theorem toDigitsCore_append (b : Nat) :
    ∀ (f n : Nat) (l : List Char),
      Nat.toDigitsCore b f n l = Nat.toDigitsCore b f n [] ++ l := by
  intro f
  induction f with
  | zero => intro n l; rfl
  | succ f ih =>
    intro n l
    simp only [Nat.toDigitsCore]
    by_cases h : n / b = 0
    · simp [h]
    · simp only [h, if_false]
      rw [ih (n / b) (Nat.digitChar (n % b) :: l), ih (n / b) [Nat.digitChar (n % b)]]
      simp

/-- Decoding a decimal digit character recovers its value. -/
theorem digitVal_digitChar (m : Nat) (h : m < 10) :
    digitVal (Nat.digitChar m) = m := by
  interval_cases m <;> rfl

/-- Appending one digit multiplies the decoded value by ten and adds it. -/
theorem decodeDigits_append_singleton (xs : List Char) (c : Char) :
    decodeDigits (xs ++ [c]) = 10 * decodeDigits xs + digitVal c := by
  simp [decodeDigits, List.foldl_append]

/-- With sufficient fuel, decoding the digits of `n` yields `n`. -/
theorem decodeDigits_toDigitsCore :
    ∀ (f n : Nat), n < f → decodeDigits (Nat.toDigitsCore 10 f n []) = n := by
  intro f
  induction f with
  | zero => intro n h; omega
  | succ f ih =>
    intro n h
    simp only [Nat.toDigitsCore]
    by_cases h0 : n / 10 = 0
    · simp only [h0, if_true]
      have h1 : decodeDigits [Nat.digitChar (n % 10)] = digitVal (Nat.digitChar (n % 10)) := by
        simp [decodeDigits]
      rw [h1, digitVal_digitChar (n % 10) (by omega)]
      omega
    · simp only [h0, if_false]
      rw [toDigitsCore_append, decodeDigits_append_singleton,
        ih (n / 10) (by omega), digitVal_digitChar (n % 10) (by omega)]
      omega

/-- `Nat.repr` is injective. -/
theorem nat_repr_inj {m n : Nat} (h : Nat.repr m = Nat.repr n) : m = n := by
  have hm : decodeDigits (Nat.toDigits 10 m) = m :=
    decodeDigits_toDigitsCore (m + 1) m (Nat.lt_succ_self m)
  have hn : decodeDigits (Nat.toDigits 10 n) = n :=
    decodeDigits_toDigitsCore (n + 1) n (Nat.lt_succ_self n)
  have hdata : Nat.toDigits 10 m = Nat.toDigits 10 n := by
    have hd := congrArg String.data h
    simpa [Nat.repr, List.asString] using hd
  rw [← hm, hdata, hn]

/-- Appending to a fixed string on the left is cancellable. -/
theorem string_append_left_cancel {a s t : String} (h : a ++ s = a ++ t) : s = t := by
  have hd := congrArg String.data h
  cases s with
  | mk sd =>
    cases t with
    | mk td =>
      cases a with
      | mk ad =>
        have hl : ad ++ sd = ad ++ td := hd
        exact congrArg String.mk (List.append_cancel_left hl)

/-- Candidate interface names for distinct indices are distinct. -/
theorem candidate_name_inj (base : String) :
    Function.Injective (fun i => base ++ Nat.repr i) := by
  intro i j h
  exact nat_repr_inj (string_append_left_cancel h)

/-! ## The name allocator returns the least free candidate -/

/-- A name lookup is empty exactly when no live interface carries the name. -/
theorem link_lookup_eq_zero_iff (k : Kernel) (n : String) :
    (link_lookup k n).length = 0 ↔ ∀ itf ∈ k, itf.ifname ≠ n := by
  simp [link_lookup, List.length_eq_zero, List.filter_eq_nil_iff]

/-- Among the first `k.length + 1` candidate names at least one is free:
the candidates are pairwise distinct, and at most `k.length` names are in
use. -/
theorem exists_free_name (k : Kernel) (base : String) :
    ∃ i ≤ k.length, (link_lookup k (base ++ Nat.repr i)).length = 0 := by
  by_contra hc
  push_neg at hc
  have hmem : ∀ i ≤ k.length, (base ++ Nat.repr i) ∈ k.map (fun itf => itf.ifname) := by
    intro i hi
    have hne := hc i hi
    rcases Nat.exists_eq_add_of_lt (Nat.pos_of_ne_zero hne) with _
    have : ¬ ∀ itf ∈ k, itf.ifname ≠ (base ++ Nat.repr i) := by
      intro hall
      exact hne ((link_lookup_eq_zero_iff k (base ++ Nat.repr i)).mpr hall)
    push_neg at this
    obtain ⟨itf, hitf, hn⟩ := this
    exact List.mem_map.mpr ⟨itf, hitf, hn⟩
  have hsub : (Finset.range (k.length + 1)).image (fun i => base ++ Nat.repr i) ⊆
      (k.map (fun itf => itf.ifname)).toFinset := by
    intro s hs
    simp only [Finset.mem_image, Finset.mem_range] at hs
    obtain ⟨i, hi, rfl⟩ := hs
    rw [List.mem_toFinset]
    exact hmem i (Nat.lt_succ_iff.mp hi)
  have hcard := Finset.card_le_card hsub
  rw [Finset.card_image_of_injective _ (candidate_name_inj base), Finset.card_range] at hcard
  have hle := List.toFinset_card_le (k.map fun itf => itf.ifname)
  rw [List.length_map] at hle
  omega

/-- The allocation loop, given any sufficient fuel, stops at the least free
index at or above its starting index. -/
theorem get_next_int_name_go_least (k : Kernel) (base : String) :
    ∀ (fuel start i0 : Nat), start ≤ i0 → i0 < start + fuel →
      (link_lookup k (base ++ Nat.repr i0)).length = 0 →
      (∀ j, start ≤ j → j < i0 → (link_lookup k (base ++ Nat.repr j)).length ≠ 0) →
      get_next_int_name_go k base fuel start = base ++ Nat.repr i0 := by
  intro fuel
  induction fuel with
  | zero => intro start i0 h1 h2 _ _; omega
  | succ fuel ih =>
    intro start i0 h1 h2 hfree hbusy
    simp only [get_next_int_name_go]
    rcases Nat.eq_or_lt_of_le h1 with heq | hlt
    · subst heq
      rw [if_neg (by omega)]
    · have hb := hbusy start le_rfl hlt
      rw [if_pos (Nat.pos_of_ne_zero hb)]
      exact ih (start + 1) i0 hlt (by omega) hfree (fun j hj1 hj2 => hbusy j (by omega) hj2)

/-- Claim C4: for every basename, the allocator returns the basename
concatenated with the smallest non-negative integer `i` such that no kernel
interface named `basename + i` exists, probing candidates in order from 0;
in particular with `base0` and `base1` live and `base2` absent it returns
`base2`. -/
theorem c4_allocate_name_least_free :
    (∀ (k : Kernel) (base : String), ∃ i,
      get_next_int_name k base = base ++ Nat.repr i ∧
      (link_lookup k (base ++ Nat.repr i)).length = 0 ∧
      ∀ j < i, (link_lookup k (base ++ Nat.repr j)).length ≠ 0) ∧
    get_next_int_name [plainInterface "base0", plainInterface "base1"] "base" = "base2" := by
  constructor
  · intro k base
    obtain ⟨w, hwle, hwfree⟩ := exists_free_name k base
    have hex : ∃ i, (link_lookup k (base ++ Nat.repr i)).length = 0 := ⟨w, hwfree⟩
    refine ⟨Nat.find hex, ?_, Nat.find_spec hex, fun j hj => Nat.find_min hex hj⟩
    exact get_next_int_name_go_least k base (k.length + 1) 0 (Nat.find hex)
      (Nat.zero_le _)
      (by have := Nat.find_min' hex hwfree; omega)
      (Nat.find_spec hex)
      (fun j _ hj => Nat.find_min hex hj)
  · rfl

/-! ## Rule primitive model -/

/-- Claim C1: the spec says construction fails exactly when the policy is
required and extra is absent, or forbidden and extra is present, so an
optional-policy kind (queue, reject, counter — `needs_extra` of Python
`None`, which the source's own comment glosses as "None means it CAN have
extra") must construct with no extra.  The code instead tests
`needs_extra is not False`, so `NFTablesStatement(REJECT, None)` raises
`ValueError`: the code contradicts its own comment at this input.  This
theorem evaluates the code there, and confirms the required/forbidden
halves the code does implement. -/
theorem c1_optional_kind_without_extra_raises :
    NFTablesStatement.init .REJECT none =
      .error (.valueError "Extra information must be provided for this statment type: REJECT") ∧
    StatementType.REJECT.needs_extra = none ∧
    NFTablesStatement.init .JUMP none =
      .error (.valueError "Extra information must be provided for this statment type: JUMP") ∧
    NFTablesStatement.init .ACCEPT (some "x") =
      .error (.valueError "Extra information must not be provided for this statement type: ACCEPT") ∧
    NFTablesStatement.init .ACCEPT none = .ok { s_type := .ACCEPT, extra := none } :=
  ⟨rfl, rfl, rfl, rfl, rfl⟩

/-- Claim C2: the spec says a statement serializes under the canonical
lowercase name of its kind, so a queue statement should serialize under the
key "queue".  The source gives the `QUEUE` member the value dict
`{"name": "accept", ...}` (an evident copy-paste slip: every other member's
name matches its lowercase identifier, and this one collides with
`ACCEPT`), so a successfully constructed queue statement serializes under
the key "accept". -/
theorem c2_queue_statement_serializes_under_accept :
    NFTablesStatement.init .QUEUE (some "num 1") =
      .ok { s_type := .QUEUE, extra := some "num 1" } ∧
    NFTablesStatement.convert_to_dict { s_type := .QUEUE, extra := some "num 1" } =
      ("accept", some "num 1") ∧
    StatementType.QUEUE.value_name ≠ "queue" ∧
    StatementType.QUEUE.member_name = "QUEUE" :=
  ⟨rfl, rfl, by decide, rfl⟩

/-- Claim C9: `MatchExpression.toCanonicalForm` is a pure total mapping to
(left, right, op) where op is the operator's short code `eq`, `ne`, `lt`,
`gt`, `le`, `ge`, or the empty string for the none operator; in particular
`MatchExpression("ip length", EQUAL, "1000")` canonicalizes to
("ip length", "1000", "eq"). -/
theorem c9_match_canonical_form (l r : String) :
    NFTablesMatch.convert_to_dict { left := l, right := r, op := .EQUAL } = (l, r, "eq") ∧
    NFTablesMatch.convert_to_dict { left := l, right := r, op := .NOT_EQUAL } = (l, r, "ne") ∧
    NFTablesMatch.convert_to_dict { left := l, right := r, op := .LESS_THAN } = (l, r, "lt") ∧
    NFTablesMatch.convert_to_dict { left := l, right := r, op := .GREATER_THAN } = (l, r, "gt") ∧
    NFTablesMatch.convert_to_dict { left := l, right := r, op := .LESS_EQUAL } = (l, r, "le") ∧
    NFTablesMatch.convert_to_dict { left := l, right := r, op := .GREATER_EQUAL } = (l, r, "ge") ∧
    NFTablesMatch.convert_to_dict { left := l, right := r, op := .NONE } = (l, r, "") ∧
    NFTablesMatch.convert_to_dict { left := "ip length", right := "1000", op := .EQUAL } =
      ("ip length", "1000", "eq") :=
  ⟨rfl, rfl, rfl, rfl, rfl, rfl, rfl, rfl⟩

/-! ## Tunnel lifecycle -/

/-- Erasing the first element satisfying `p` drops exactly one match. -/
theorem length_filter_eraseP {α : Type} (p : α → Bool) :
    ∀ (l : List α), 0 < (l.filter p).length →
      ((l.eraseP p).filter p).length = (l.filter p).length - 1 := by
  intro l
  induction l with
  | nil => simp
  | cons a t ih =>
    intro hpos
    by_cases hp : p a
    · rw [List.eraseP_cons_of_pos hp, List.filter_cons_of_pos hp]
      simp
    · rw [List.eraseP_cons_of_neg hp, List.filter_cons_of_neg hp,
        List.filter_cons_of_neg hp]
      rw [List.filter_cons_of_neg hp] at hpos
      exact ih hpos

/-- Claim C5: teardown on a descriptor with `interface_created = false` is a
no-op returning no error and touching no kernel state; hence after a first
teardown that completed without error, a second teardown is again a no-op. -/
theorem c5_teardown_idempotent :
    (∀ (k : Kernel) (d : WireguardTunnel), d.interface_created = false →
      WireguardTunnel.delete_interface k d = (none, k, d)) ∧
    (∀ (k k' : Kernel) (d d' : WireguardTunnel),
      WireguardTunnel.delete_interface k d = (none, k', d') →
      WireguardTunnel.delete_interface k' d' = (none, k', d')) := by
  have h1 : ∀ (k : Kernel) (d : WireguardTunnel), d.interface_created = false →
      WireguardTunnel.delete_interface k d = (none, k, d) := by
    intro k d h
    simp [WireguardTunnel.delete_interface, h]
  refine ⟨h1, ?_⟩
  intro k k' d d' h
  rcases hcr : d.interface_created with _ | _
  · rw [h1 k d hcr] at h
    simp only [Prod.mk.injEq] at h
    obtain ⟨-, rfl, rfl⟩ := h
    exact h1 k d hcr
  · rw [WireguardTunnel.delete_interface] at h
    rcases hifn : d.ifname with _ | n
    · simp [hcr, hifn] at h
    · simp only [hcr, hifn, ne_eq, not_true_eq_false, if_false] at h
      by_cases hl : (link_lookup k n).length = 0
      · rw [if_pos hl] at h
        simp at h
      · rw [if_neg hl] at h
        simp only [Prod.mk.injEq] at h
        obtain ⟨-, rfl, rfl⟩ := h
        exact h1 _ _ rfl

/-- Claim C5 witness: two teardown calls in succession on a freshly
constructed descriptor, both no-ops. -/
theorem c5_witness :
    WireguardTunnel.delete_interface [] sampleTunnel = (none, [], sampleTunnel) :=
  c5_teardown_idempotent.2 [] [] sampleTunnel sampleTunnel
    (c5_teardown_idempotent.1 [] sampleTunnel rfl)

/-- Claim C6: teardown on a descriptor with `interface_created = true` fails
with the interface-not-found error (the dedicated `RuntimeError` raise)
leaving kernel table and descriptor unchanged when no interface of that
name exists; otherwise it deletes the first interface of that name (one
fewer match remains) and clears `interface_created`. -/
theorem c6_teardown_when_created (k : Kernel) (d : WireguardTunnel) (n : String)
    (hcreated : d.interface_created = true) (hname : d.ifname = some n) :
    ((link_lookup k n).length = 0 →
      WireguardTunnel.delete_interface k d =
        (some (.runtimeError "Cannot delete interface that doesn't exist!"), k, d)) ∧
    (0 < (link_lookup k n).length →
      WireguardTunnel.delete_interface k d =
        (none, k.eraseP (fun itf => itf.ifname == n), { d with interface_created := false }) ∧
      (link_lookup (k.eraseP (fun itf => itf.ifname == n)) n).length =
        (link_lookup k n).length - 1) := by
  constructor
  · intro h0
    simp [WireguardTunnel.delete_interface, hcreated, hname, h0]
  · intro hpos
    constructor
    · simp [WireguardTunnel.delete_interface, hcreated, hname, Nat.pos_iff_ne_zero.mp hpos]
    · have he := length_filter_eraseP (fun itf : KernelInterface => itf.ifname == n) k
        (by simpa [link_lookup] using hpos)
      simpa [link_lookup] using he

/-- Claim C6 witness: with the interface live, teardown succeeds and leaves
no interface of that name; the error branch is exercised on an empty kernel
table. -/
theorem c6_witness :
    WireguardTunnel.delete_interface []
        { namedTunnel with interface_created := true } =
      (some (.runtimeError "Cannot delete interface that doesn't exist!"), [],
        { namedTunnel with interface_created := true }) ∧
    (WireguardTunnel.delete_interface [plainInterface "sown-wg0"]
        { namedTunnel with interface_created := true }).1 = none := by
  constructor
  · exact (c6_teardown_when_created [] { namedTunnel with interface_created := true }
      "sown-wg0" rfl rfl).1 rfl
  · rw [((c6_teardown_when_created [plainInterface "sown-wg0"]
      { namedTunnel with interface_created := true } "sown-wg0" rfl rfl).2 (by decide)).1]

/-- Claim C3 counterexample: the claim says setup on a descriptor that has
reached DESTROYED after a completed teardown is rejected.  On the code, a
fresh auto-named descriptor is set up (no error), torn down (no error,
`interface_created` back to false), and then set up again — and the second
setup also returns no error, recreating kernel state. -/
theorem c3_counterexample :
    (WireguardTunnel.setup_interface [] sampleTunnel).1 = none ∧
    (WireguardTunnel.delete_interface
        (WireguardTunnel.setup_interface [] sampleTunnel).2.1
        (WireguardTunnel.setup_interface [] sampleTunnel).2.2).1 = none ∧
    (WireguardTunnel.delete_interface
        (WireguardTunnel.setup_interface [] sampleTunnel).2.1
        (WireguardTunnel.setup_interface [] sampleTunnel).2.2).2.2.interface_created = false ∧
    (WireguardTunnel.setup_interface
        (WireguardTunnel.delete_interface
            (WireguardTunnel.setup_interface [] sampleTunnel).2.1
            (WireguardTunnel.setup_interface [] sampleTunnel).2.2).2.1
        (WireguardTunnel.delete_interface
            (WireguardTunnel.setup_interface [] sampleTunnel).2.1
            (WireguardTunnel.setup_interface [] sampleTunnel).2.2).2.2).1 = none :=
  ⟨rfl, rfl, rfl, rfl⟩

/-- Claim C3 as amended: `setup_interface` succeeds exactly when no kernel
interface with the descriptor's name exists.  On a CREATED descriptor
(whose interface is live) it is rejected through the kernel's
name-already-exists creation failure, with no state change; but after a
completed teardown (the spec's DESTROYED state) a further setup succeeds
again — the code enforces no terminal state. -/
theorem c3_setup_guarded_by_kernel_name (k : Kernel) (d : WireguardTunnel) (n : String)
    (hname : d.ifname = some n) :
    (0 < (link_lookup k n).length →
      WireguardTunnel.setup_interface k d = (some .kernelCreateError, k, d)) ∧
    ((link_lookup k n).length = 0 →
      (WireguardTunnel.setup_interface k d).1 = none ∧
      (WireguardTunnel.setup_interface k d).2.2.interface_created = true) ∧
    (d.interface_created = true → (link_lookup k n).length = 1 →
      (WireguardTunnel.delete_interface k d).1 = none ∧
      (WireguardTunnel.setup_interface
          (WireguardTunnel.delete_interface k d).2.1
          (WireguardTunnel.delete_interface k d).2.2).1 = none) := by
  refine ⟨?_, ?_, ?_⟩
  · intro hpos
    simp [WireguardTunnel.setup_interface, hname, hpos]
  · intro h0
    constructor <;> simp [WireguardTunnel.setup_interface, hname, h0]
  · intro hcreated h1
    have hdel := ((c6_teardown_when_created k d n hcreated hname).2 (by omega)).1
    have herase := ((c6_teardown_when_created k d n hcreated hname).2 (by omega)).2
    rw [hdel]
    refine ⟨rfl, ?_⟩
    have h0 : (link_lookup (k.eraseP (fun itf => itf.ifname == n)) n).length = 0 := by
      omega
    simp [WireguardTunnel.setup_interface, hname, h0]

/-- Claim C3 witness: setup on a CREATED descriptor whose interface is live
is rejected; after its teardown completes, setup returns no error. -/
theorem c3_witness :
    WireguardTunnel.setup_interface [plainInterface "sown-wg0"]
        { namedTunnel with interface_created := true } =
      (some .kernelCreateError, [plainInterface "sown-wg0"],
        { namedTunnel with interface_created := true }) ∧
    (WireguardTunnel.setup_interface
        (WireguardTunnel.delete_interface [plainInterface "sown-wg0"]
          { namedTunnel with interface_created := true }).2.1
        (WireguardTunnel.delete_interface [plainInterface "sown-wg0"]
          { namedTunnel with interface_created := true }).2.2).1 = none := by
  have h := c3_setup_guarded_by_kernel_name [plainInterface "sown-wg0"]
    { namedTunnel with interface_created := true } "sown-wg0" rfl
  exact ⟨h.1 (by decide), (h.2.2 rfl (by decide)).2⟩

/-! ## Peer liveness -/

/-- Claim C7: for a tunnel whose (first) peer record carries a
last-handshake timestamp `t`, `is_peer_alive` returns exactly the truth
value of `now - t ≤ 300` (the hardcoded dead threshold), with no error and
no change to kernel or descriptor state. -/
theorem c7_is_peer_alive_threshold (wgInfo : String → WGDeviceInfo) (now : Int)
    (k : Kernel) (d : WireguardTunnel) (n : String) (p : WGPeerAttrs)
    (rest : List WGPeerAttrs) (t : Int)
    (hname : d.ifname = some n) (hpeers : (wgInfo n).peers = some (p :: rest))
    (ht : p.last_handshake_time = some t) :
    WireguardTunnel.is_peer_alive wgInfo now k d =
      (none, some (decide (now - t ≤ 300)), k, d) ∧
    ((WireguardTunnel.is_peer_alive wgInfo now k d).2.1 = some true ↔ now - t ≤ 300) := by
  have hpi : WireguardTunnel.get_peer_info wgInfo d = .ok p := by
    simp [WireguardTunnel.get_peer_info, hname, hpeers]
  constructor
  · simp [WireguardTunnel.is_peer_alive, hpi, ht]
  · simp [WireguardTunnel.is_peer_alive, hpi, ht]

/-- Claim C7 witness: with the last handshake at time 0 and threshold 300,
the peer is reported dead when queried at time 301 and alive at time 299. -/
theorem c7_witness :
    (WireguardTunnel.is_peer_alive (handshakeInfoAt 0) 301 [] namedTunnel).2.1 = some false ∧
    (WireguardTunnel.is_peer_alive (handshakeInfoAt 0) 299 [] namedTunnel).2.1 = some true := by
  have h301 := (c7_is_peer_alive_threshold (handshakeInfoAt 0) 301 [] namedTunnel "sown-wg0"
    { last_handshake_time := some 0 } [] 0 rfl rfl rfl).1
  have h299 := (c7_is_peer_alive_threshold (handshakeInfoAt 0) 299 [] namedTunnel "sown-wg0"
    { last_handshake_time := some 0 } [] 0 rfl rfl rfl).1
  rw [h301, h299]
  exact ⟨rfl, rfl⟩

/-- Claim C8 counterexample: the claim says that with no peer record the
query fails with the distinct `PeerInfoUnavailableError`.  On the code, the
failure at such an input is the generic `KeyError` raised by the dict
subscript on the absent `WGDEVICE_A_PEERS` key — no dedicated error class
exists anywhere in the repository. -/
theorem c8_counterexample :
    (WireguardTunnel.is_peer_alive noPeersInfo 0 [] namedTunnel).1 =
      some (PyErr.keyError "WGDEVICE_A_PEERS") ∧
    (WireguardTunnel.is_peer_alive noPeersInfo 0 [] namedTunnel).1 ≠
      some PyErr.peerInfoUnavailable :=
  ⟨rfl, by decide⟩

/-- Claim C8 as amended: with no peer record the query fails — with the
generic lookup errors of the host language (`KeyError` on the absent
`WGDEVICE_A_PEERS` key, `IndexError` on an empty peer list), not with a
dedicated recoverable `PeerInfoUnavailableError` — and it never mutates the
descriptor or the kernel state. -/
theorem c8_no_peer_record_generic_error (wgInfo : String → WGDeviceInfo) (now : Int)
    (k : Kernel) (d : WireguardTunnel) (n : String) (hname : d.ifname = some n) :
    ((wgInfo n).peers = none →
      WireguardTunnel.is_peer_alive wgInfo now k d =
        (some (PyErr.keyError "WGDEVICE_A_PEERS"), none, k, d)) ∧
    ((wgInfo n).peers = some [] →
      WireguardTunnel.is_peer_alive wgInfo now k d =
        (some PyErr.indexError, none, k, d)) := by
  constructor
  · intro h
    simp [WireguardTunnel.is_peer_alive, WireguardTunnel.get_peer_info, hname, h]
  · intro h
    simp [WireguardTunnel.is_peer_alive, WireguardTunnel.get_peer_info, hname, h]

/-- Claim C8 witness: a device reporting no `WGDEVICE_A_PEERS` attribute
makes the liveness query fail with the `KeyError`, kernel table and
descriptor unchanged. -/
theorem c8_witness :
    WireguardTunnel.is_peer_alive noPeersInfo 5 [] namedTunnel =
      (some (PyErr.keyError "WGDEVICE_A_PEERS"), none, [], namedTunnel) :=
  (c8_no_peer_record_generic_error noPeersInfo 5 [] namedTunnel "sown-wg0" rfl).1 rfl

/-! ## Construction with manual naming -/

/-- Claim C10: constructing with `auto_name = False` leaves the name field
unassigned (no default), so every later operation that reads it — setup,
teardown with `interface_created = true`, and the peer liveness query —
raises the unassigned-attribute error until a name is assigned; and the
constructor initializes `interface_created` to false in both naming
modes. -/
theorem c10_no_auto_name_leaves_name_unassigned (kernel : Kernel)
    (peer_addrs local_addrs : List String) (listen_port : Nat)
    (peer_pubkey own_privkey : String) :
    (WireguardTunnel.init kernel peer_addrs local_addrs listen_port
        peer_pubkey own_privkey false).ifname = none ∧
    (WireguardTunnel.init kernel peer_addrs local_addrs listen_port
        peer_pubkey own_privkey false).interface_created = false ∧
    (WireguardTunnel.init kernel peer_addrs local_addrs listen_port
        peer_pubkey own_privkey true).interface_created = false ∧
    (∀ k : Kernel,
      WireguardTunnel.setup_interface k (WireguardTunnel.init kernel peer_addrs
          local_addrs listen_port peer_pubkey own_privkey false) =
        (some PyErr.attributeError, k,
          WireguardTunnel.init kernel peer_addrs local_addrs listen_port
            peer_pubkey own_privkey false)) ∧
    (∀ k : Kernel,
      WireguardTunnel.delete_interface k
          { WireguardTunnel.init kernel peer_addrs local_addrs listen_port
              peer_pubkey own_privkey false with interface_created := true } =
        (some PyErr.attributeError, k,
          { WireguardTunnel.init kernel peer_addrs local_addrs listen_port
              peer_pubkey own_privkey false with interface_created := true })) ∧
    (∀ (wgInfo : String → WGDeviceInfo) (now : Int) (k : Kernel),
      (WireguardTunnel.is_peer_alive wgInfo now k (WireguardTunnel.init kernel
          peer_addrs local_addrs listen_port peer_pubkey own_privkey false)).1 =
        some PyErr.attributeError) :=
  ⟨rfl, rfl, rfl, fun _ => rfl, fun _ => rfl, fun _ _ _ => rfl⟩

end Networking
